import Mathlib

/-!
Shallow embedding of the sales-performance backend (`backend/server.py`).

Money amounts are modelled as rationals; `round2` models Python's
`round(x, 2)` (round to the nearest hundredth; tie direction is irrelevant
to every property proved here).  A call `random.uniform(a, b)` is modelled
as `a + (b - a) * t` for a draw parameter `t ∈ [0, 1]`, and
`random.randint(a, b)` as `a + d % (b - a + 1)` for a raw draw `d : ℕ`.
Transaction dates are modelled as integer day indexes: the ISO date strings
the code compares with `$gte`/`$lte` are fixed-format, so lexicographic and
chronological order coincide.
-/

namespace RevenueInsights

/-- Python `round(x, 2)`: round to the nearest multiple of `1/100`. -/
def round2 (x : ℚ) : ℚ := ((round (100 * x) : ℤ) : ℚ) / 100

/-- Model of `random.uniform(a, b)`: the draw parameter `t` ranges over `[0, 1]`. -/
def uniform (a b t : ℚ) : ℚ := a + (b - a) * t

/-- Model of `random.randint(a, b)` (inclusive bounds): `d` is the raw draw. -/
def randint (a b d : ℕ) : ℕ := a + d % (b - a + 1)

/-- Zero-padded decimal rendering, as in the Python format `{n:06d}`. -/
def zeroPad (width n : ℕ) : String :=
  let s := toString n
  String.mk (List.replicate (width - s.length) '0') ++ s

/-- Catalog entry (`products`, server.py lines 124-133). -/
structure Product where
  id : String
  name : String
  category : String
  price_low : ℚ
  price_high : ℚ
deriving DecidableEq, Repr

/-- Generated customer (server.py lines 141-149); the creation date plays no
role in the generator's per-transaction logic and is omitted. -/
structure Customer where
  id : String
  name : String
  segment : String
  region : String
deriving DecidableEq, Repr

/-- Stored sales record (`SalesRecord` model, server.py lines 49-65). -/
structure SalesRecord where
  transaction_id : String
  date : ℤ
  customer_id : String
  customer_name : String
  customer_segment : String
  product_id : String
  product_name : String
  product_category : String
  quantity : ℕ
  unit_price : ℚ
  total_amount : ℚ
  region : String
  sales_rep : String
  channel : String
deriving DecidableEq, Repr

/-- Product catalog, server.py lines 124-133. -/
def catalog_products : List Product :=
  [⟨"PROD001", "CloudSync Pro", "Software", 99, 299⟩,
   ⟨"PROD002", "DataVault Enterprise", "Software", 199, 799⟩,
   ⟨"PROD003", "SmartAnalytics Suite", "Analytics", 149, 499⟩,
   ⟨"PROD004", "SecureShield Advanced", "Security", 79, 249⟩,
   ⟨"PROD005", "WorkFlow Optimizer", "Productivity", 59, 199⟩,
   ⟨"PROD006", "Mobile Connect API", "Integration", 29, 99⟩,
   ⟨"PROD007", "AI Assistant Premium", "AI/ML", 199, 599⟩,
   ⟨"PROD008", "Cloud Storage Plus", "Storage", 19, 89⟩]

/-- Region list, server.py line 135. -/
def region_names : List String :=
  ["North America", "Europe", "Asia-Pacific", "Latin America", "Middle East & Africa"]

/-- Channel list, server.py line 136. -/
def channel_names : List String := ["Online", "Retail", "Direct Sales", "Partner"]

/-- Segment list, server.py line 137. -/
def segment_names : List String := ["Enterprise", "SMB", "Individual"]

/-- Quantity draw, server.py line 175: `random.randint(1, 10)`. -/
def gen_quantity (qdraw : ℕ) : ℕ := randint 1 10 qdraw

/-- Raw (pre-adjustment) unit price, server.py line 176:
`random.uniform(price_low, price_high)`. -/
def gen_unit_price (p : Product) (priceT : ℚ) : ℚ := uniform p.price_low p.price_high priceT

/-- Segment-based price adjustment, server.py lines 179-183: Enterprise
multiplies the unit price by `uniform(1.2, 1.8)`, Individual by
`uniform(0.7, 0.9)`, any other segment (SMB) is left unchanged. -/
def adjusted_unit_price (segment : String) (u segT : ℚ) : ℚ :=
  if segment = "Enterprise" then u * uniform (12/10) (18/10) segT
  else if segment = "Individual" then u * uniform (7/10) (9/10) segT
  else u

/-- Build one sales record from its random draws, server.py lines 171-204.
`idx` is `len(sales_records)` at insertion time.  The pre-adjustment
`total_amount = quantity * unit_price` of line 177 is overwritten at
line 185 by `quantity * adjusted_unit_price` and never reaches the record;
both `unit_price` and `total_amount` are rounded independently (lines
197-198), each from its own unrounded value. -/
def makeSalesRecord (idx : ℕ) (date : ℤ) (customer : Customer) (product : Product)
    (qdraw : ℕ) (priceT segT : ℚ) (rep channel : String) : SalesRecord :=
  let quantity := gen_quantity qdraw
  let unit_price := adjusted_unit_price customer.segment (gen_unit_price product priceT) segT
  let total_amount := (quantity : ℚ) * unit_price
  { transaction_id := "TXN" ++ zeroPad 6 (idx + 1)
    date := date
    customer_id := customer.id
    customer_name := customer.name
    customer_segment := customer.segment
    product_id := product.id
    product_name := product.name
    product_category := product.category
    quantity := quantity
    unit_price := round2 unit_price
    total_amount := round2 total_amount
    region := customer.region
    sales_rep := rep
    channel := channel }

/-- Per-day base transaction count, server.py lines 158-165: Q4 months draw
from `randint(15, 35)`, summer months from `randint(5, 15)`, all other
months from `randint(8, 20)`. -/
def base_transactions (month draw : ℕ) : ℕ :=
  if month = 11 ∨ month = 12 then randint 15 35 draw
  else if month = 6 ∨ month = 7 ∨ month = 8 then randint 5 15 draw
  else randint 8 20 draw

/-- Per-day transaction count after the weekend effect, server.py lines
167-169: on weekends (`weekday() >= 5`) the drawn count is scaled by `0.6`
and truncated to an integer. -/
def daily_transactions (month weekday draw : ℕ) : ℕ :=
  let b := base_transactions month draw
  if 5 ≤ weekday then (⌊(b : ℚ) * (6/10)⌋).toNat else b

/-- Result message of the generator, server.py lines 121 and 210. -/
inductive GenMessage where
  | alreadyExists (count : ℕ)
  | generated (count : ℕ)
deriving DecidableEq, Repr

/-- Literal message strings of server.py lines 121 and 210. -/
def GenMessage.render : GenMessage → String
  | .alreadyExists n => "Sample data already exists (" ++ toString n ++ " records)"
  | .generated n => "Generated " ++ toString n ++ " sales records successfully"

/-- Store-level behaviour of `generate_sample_data`, server.py lines 115-210:
if any record already exists the function returns immediately with the
existing count (lines 119-121); otherwise it inserts the freshly generated
batch (`fresh` stands for the records produced from the run's random draws,
each built by `makeSalesRecord`) and reports its size (lines 206-210).
The function returns normally in both cases — there is no error path. -/
def generate_sample_data (store fresh : List SalesRecord) :
    List SalesRecord × GenMessage :=
  if 0 < store.length then (store, .alreadyExists store.length)
  else (store ++ fresh, .generated fresh.length)

/-- Error value modelling `fastapi.HTTPException(status_code, detail)`;
`str(e)` on such an exception renders as `"{status_code}: {detail}"`. -/
structure HTTPError where
  status_code : ℕ
  detail : String
deriving DecidableEq, Repr

/-- Period-comparison block of the sales analytics payload, server.py lines
270-276. -/
structure PeriodComparison where
  revenue_growth : ℚ
  previous_revenue : ℚ
  transaction_growth : ℚ
deriving DecidableEq, Repr

/-- Response model `SalesAnalytics`, server.py lines 67-72. -/
structure SalesAnalytics where
  total_revenue : ℚ
  total_transactions : ℕ
  average_order_value : ℚ
  conversion_rate : ℚ
  period_comparison : PeriodComparison
deriving DecidableEq, Repr

/-- Query filter of `get_sales_analytics`, server.py lines 228-238: the date
window applies only when both bounds are supplied; the region predicate
applies only when a region other than the sentinel `"all"` is supplied. -/
def matches_query (sd ed : Option ℤ) (region : Option String) (r : SalesRecord) : Bool :=
  (match sd, ed with
   | some s, some e => decide (s ≤ r.date ∧ r.date ≤ e)
   | _, _ => true)
  && (match region with
      | some g => if g = "all" then true else decide (r.region = g)
      | none => true)

/-- Average order value, server.py line 249: zero-guarded division. -/
def average_order_value (total_revenue : ℚ) (total_transactions : ℕ) : ℚ :=
  if 0 < total_transactions then total_revenue / total_transactions else 0

/-- Revenue growth percentage, server.py line 268: zero-guarded division. -/
def revenue_growth_pct (total_revenue prev_revenue : ℚ) : ℚ :=
  if 0 < prev_revenue then (total_revenue - prev_revenue) / prev_revenue * 100 else 0

/-- Transaction growth percentage, server.py line 273: zero-guarded division. -/
def transaction_growth_pct (total_transactions prev_transactions : ℕ) : ℚ :=
  if 0 < prev_transactions then
    ((total_transactions : ℚ) - (prev_transactions : ℚ)) / (prev_transactions : ℚ) * 100
  else 0

/-- Period comparison, server.py lines 254-276: with both bounds supplied the
previous window is `[start - (end - start), start]`, re-filtered with the
same region predicate; `revenue_growth` and `previous_revenue` are rounded,
`transaction_growth` is not.  Without a full date range the block is
zero-filled. -/
def period_comparison_calc (records : List SalesRecord) (sd ed : Option ℤ)
    (region : Option String) (total_revenue : ℚ) (total_transactions : ℕ) :
    PeriodComparison :=
  match sd, ed with
  | some s, some e =>
      let period_length := e - s
      let prev_start := s - period_length
      let prev_end := s
      let prev_data := records.filter (matches_query (some prev_start) (some prev_end) region)
      let prev_revenue := (prev_data.map (·.total_amount)).sum
      { revenue_growth := round2 (revenue_growth_pct total_revenue prev_revenue)
        previous_revenue := round2 prev_revenue
        transaction_growth := transaction_growth_pct total_transactions prev_data.length }
  | _, _ => ⟨0, 0, 0⟩

/-- Body of the `try:` block of `get_sales_analytics`, server.py lines
228-284.  An empty filtered set raises 404 (lines 243-244); otherwise the
analytics are computed, with `conversion_rate` drawn from
`random.uniform(2.5, 8.5)` independently of the data (line 252). -/
def sales_analytics_body (records : List SalesRecord) (sd ed : Option ℤ)
    (region : Option String) (convT : ℚ) : Except HTTPError SalesAnalytics :=
  let sales_data := records.filter (matches_query sd ed region)
  if sales_data.isEmpty then .error ⟨404, "No sales data found"⟩
  else
    let total_revenue := (sales_data.map (·.total_amount)).sum
    let total_transactions := sales_data.length
    .ok { total_revenue := round2 total_revenue
          total_transactions := total_transactions
          average_order_value := round2 (average_order_value total_revenue total_transactions)
          conversion_rate := round2 (uniform (5/2) (17/2) convT)
          period_comparison :=
            period_comparison_calc records sd ed region total_revenue total_transactions }

/-- Endpoint `get_sales_analytics`, server.py lines 221-287.  The blanket
`except Exception` at line 286 also catches the `HTTPException` raised
inside the `try:` block (FastAPI's `HTTPException` is an `Exception`
subclass), re-raising every failure as status 500 with the original
exception rendered into the detail string. -/
def get_sales_analytics (records : List SalesRecord) (sd ed : Option ℤ)
    (region : Option String) (convT : ℚ) : Except HTTPError SalesAnalytics :=
  match sales_analytics_body records sd ed region convT with
  | .ok r => .ok r
  | .error e =>
      .error ⟨500, "Error calculating sales analytics: " ++ toString e.status_code ++ ": "
        ++ e.detail⟩

/-- Row of the customer `$group` pipeline, server.py lines 293-305. -/
structure CustomerGroup where
  id : String
  name : String
  segment : String
  total_revenue : ℚ
  transaction_count : ℕ
  first_purchase : ℤ
  last_purchase : ℤ
deriving DecidableEq, Repr

/-- Formatted top-customer entry, server.py lines 317-325. -/
structure TopCustomer where
  id : String
  name : String
  revenue : ℚ
  transactions : ℕ
deriving DecidableEq, Repr

/-- Per-segment accumulator, server.py lines 328-334. -/
structure SegmentStat where
  count : ℕ
  revenue : ℚ
deriving DecidableEq, Repr

/-- Response model `CustomerAnalytics`, server.py lines 74-79; the two dict
payloads are modelled as insertion-ordered association lists. -/
structure CustomerAnalytics where
  total_customers : ℕ
  returning_customers : ℕ
  customer_retention_rate : ℚ
  top_customers : List TopCustomer
  segment_breakdown : List (String × SegmentStat)
deriving DecidableEq, Repr

/-- Retention rate, server.py line 313: zero-guarded division. -/
def customer_retention_rate_calc (returning total : ℕ) : ℚ :=
  if 0 < total then (returning : ℚ) / (total : ℚ) * 100 else 0

/-- One step of the segment-breakdown accumulation loop, server.py lines
329-334. -/
def add_segment (stats : List (String × SegmentStat)) (g : CustomerGroup) :
    List (String × SegmentStat) :=
  if stats.any (fun s => s.1 = g.segment) then
    stats.map (fun s =>
      if s.1 = g.segment then (s.1, ⟨s.2.count + 1, s.2.revenue + g.total_revenue⟩) else s)
  else stats ++ [(g.segment, ⟨1, g.total_revenue⟩)]

/-- Segment breakdown, server.py lines 327-337: accumulate per segment, then
round each segment's revenue. -/
def segment_breakdown_calc (customer_data : List CustomerGroup) :
    List (String × SegmentStat) :=
  (customer_data.foldl add_segment []).map (fun s => (s.1, ⟨s.2.count, round2 s.2.revenue⟩))

/-- Endpoint `get_customer_analytics`, server.py lines 289-348, over the rows
returned by the grouping pipeline (the backing store performs the group-by;
the spec admits either native or in-process grouping, §6). -/
def get_customer_analytics (customer_data : List CustomerGroup) : CustomerAnalytics :=
  let total_customers := customer_data.length
  let returning_customers := (customer_data.filter (fun c => 1 < c.transaction_count)).length
  { total_customers := total_customers
    returning_customers := returning_customers
    customer_retention_rate :=
      round2 (customer_retention_rate_calc returning_customers total_customers)
    top_customers :=
      ((customer_data.mergeSort (fun a b => b.total_revenue ≤ a.total_revenue)).take 10).map
        (fun c => ⟨c.id, c.name, round2 c.total_revenue, c.transaction_count⟩)
    segment_breakdown := segment_breakdown_calc customer_data }

/-- Row of the monthly `$group` pipeline of the seasonal endpoint, server.py
lines 425-441; `month` is the `"%Y-%m"` key and the pipeline sorts rows
ascending by it. -/
structure MonthBucket where
  month : String
  revenue : ℚ
  transactions : ℕ
deriving DecidableEq, Repr

/-- Monthly-trends block, server.py lines 443-447 (the `[-12:]` slices). -/
structure MonthlyTrends where
  labels : List String
  revenue : List ℚ
  transactions : List ℕ
deriving DecidableEq, Repr

/-- Peak-period entry, server.py lines 476-480. -/
structure PeakPeriod where
  period : String
  revenue : ℚ
  above_average : ℚ
deriving DecidableEq, Repr

/-- Per-quarter accumulator, server.py lines 462-465. -/
structure SegmentStatQ where
  revenue : ℚ
  transactions : ℕ
deriving DecidableEq, Repr

/-- Response model `SeasonalTrends`, server.py lines 86-89. -/
structure SeasonalTrends where
  monthly_trends : MonthlyTrends
  seasonal_patterns : List (String × SegmentStatQ)
  peak_periods : List PeakPeriod
deriving DecidableEq, Repr

/-- Monthly-trends block, server.py lines 443-447: Python's `[-12:]` keeps
the last 12 entries. -/
def monthly_trends_calc (monthly_data : List MonthBucket) : MonthlyTrends :=
  let last12 := monthly_data.drop (monthly_data.length - 12)
  ⟨last12.map (·.month), last12.map (fun i => round2 i.revenue), last12.map (·.transactions)⟩

/-- Month number parsed from a `"%Y-%m"` key, server.py line 452. -/
def month_num_of (id : String) : ℕ := (((id.splitOn "-").getD 1 "").toNat?).getD 0

/-- Quarter label of a month number, server.py lines 453-460. -/
def quarter_of (n : ℕ) : String :=
  if n = 1 ∨ n = 2 ∨ n = 3 then "Q1"
  else if n = 4 ∨ n = 5 ∨ n = 6 then "Q2"
  else if n = 7 ∨ n = 8 ∨ n = 9 then "Q3"
  else "Q4"

/-- One step of the quarterly accumulation loop, server.py lines 451-465. -/
def add_quarter (stats : List (String × SegmentStatQ)) (i : MonthBucket) :
    List (String × SegmentStatQ) :=
  let q := quarter_of (month_num_of i.month)
  if stats.any (fun s => s.1 = q) then
    stats.map (fun s =>
      if s.1 = q then (s.1, ⟨s.2.revenue + i.revenue, s.2.transactions + i.transactions⟩) else s)
  else stats ++ [(q, ⟨i.revenue, i.transactions⟩)]

/-- Quarterly seasonal patterns, server.py lines 449-468. -/
def seasonal_patterns_calc (monthly_data : List MonthBucket) :
    List (String × SegmentStatQ) :=
  (monthly_data.foldl add_quarter []).map (fun s => (s.1, ⟨round2 s.2.revenue, s.2.transactions⟩))

/-- Formatted peak-period entry, server.py lines 476-480. -/
def mk_peak (avg : ℚ) (i : MonthBucket) : PeakPeriod :=
  ⟨i.month, round2 i.revenue, round2 ((i.revenue - avg) / avg * 100)⟩

/-- Peak-period identification loop, server.py lines 470-480: walk the
chronologically sorted monthly rows, appending every month whose revenue
exceeds `1.2` times the mean. -/
def peak_periods_all (monthly_data : List MonthBucket) : List PeakPeriod :=
  if monthly_data.isEmpty then []
  else
    let avg_revenue := (monthly_data.map (·.revenue)).sum / (monthly_data.length : ℚ)
    monthly_data.foldl
      (fun acc item =>
        if avg_revenue * (12/10) < item.revenue then acc ++ [mk_peak avg_revenue item] else acc)
      []

/-- Endpoint `get_seasonal_trends`, server.py lines 421-489, over the sorted
rows of the monthly pipeline; the final payload truncates the peak list to
its first 6 entries (line 485). -/
def get_seasonal_trends (monthly_data : List MonthBucket) : SeasonalTrends :=
  { monthly_trends := monthly_trends_calc monthly_data
    seasonal_patterns := seasonal_patterns_calc monthly_data
    peak_periods := (peak_periods_all monthly_data).take 6 }

/-- Concrete customer used for counterexamples and witnesses. -/
def cx_customer : Customer := ⟨"CUST0001", "Acme Corp", "SMB", "Europe"⟩

/-- Concrete Enterprise customer used for witnesses. -/
def ent_customer : Customer := ⟨"CUST0002", "Globex", "Enterprise", "North America"⟩

/-- Catalog product PROD008 (price range 19-89), used for counterexamples. -/
def cx_product : Product := ⟨"PROD008", "Cloud Storage Plus", "Storage", 19, 89⟩

/-- Concrete generated record: quantity 5, raw unit price `19.004`
(draw `t = 1/17500` over the 19-89 range), segment SMB (no adjustment). -/
def cx_record : SalesRecord := makeSalesRecord 0 0 cx_customer cx_product 4 (1/17500) 0 "Rep" "Online"

/-- Concrete stored record in region "North America" with round amounts. -/
def demo_record : SalesRecord :=
  ⟨"TXN000001", 0, "CUST0001", "Acme Corp", "SMB", "PROD001", "CloudSync Pro", "Software",
    1, 100, 100, "North America", "Rep", "Online"⟩

/-- Concrete sorted monthly series: February's revenue 400 exceeds 1.2 times
the mean (250), January's 100 does not. -/
def demo_months : List MonthBucket := [⟨"2024-01", 100, 2⟩, ⟨"2024-02", 400, 3⟩]

/-! Helper lemmas about `round2` and accumulation loops. -/

/-- Rounding to two decimals is monotone. -/
theorem round2_mono {x y : ℚ} (h : x ≤ y) : round2 x ≤ round2 y := by
  unfold round2
  have h2 : round (100 * x) ≤ round (100 * y) := by
    rw [round_eq, round_eq]
    exact Int.floor_le_floor (by linarith)
  have h3 : ((round (100 * x) : ℤ) : ℚ) ≤ ((round (100 * y) : ℤ) : ℚ) := by exact_mod_cast h2
  linarith

/-- Rounding to two decimals is idempotent. -/
theorem round2_round2 (x : ℚ) : round2 (round2 x) = round2 x := by
  unfold round2
  have h : (100 : ℚ) * (((round (100 * x) : ℤ) : ℚ) / 100) = ((round (100 * x) : ℤ) : ℚ) := by
    ring
  rw [h, round_intCast]

/-- Rounding fixes zero. -/
theorem round2_zero : round2 0 = 0 := by norm_num [round2, round_eq]

/-- Rounding fixes 100. -/
theorem round2_hundred : round2 100 = 100 := by norm_num [round2, round_eq]

/-- An append-inside-a-fold conditional accumulation loop computes a
filter-and-map. -/
theorem foldl_append_filter {α β : Type} (p : α → Prop) [DecidablePred p] (f : α → β) :
    ∀ (l : List α) (acc : List β),
      l.foldl (fun acc x => if p x then acc ++ [f x] else acc) acc
        = acc ++ (l.filter (fun x => decide (p x))).map f := by
  intro l
  induction l with
  | nil => intro acc; simp
  | cons a l ih =>
      intro acc
      by_cases h : p a
      · simp [List.foldl_cons, h, ih]
      · simp [List.foldl_cons, h, ih]

/-- The peak-period loop of server.py lines 470-480 computes exactly the
chronological filter of the qualifying months. -/
theorem peak_periods_all_eq (monthly_data : List MonthBucket) :
    peak_periods_all monthly_data
      = (monthly_data.filter (fun i =>
            decide ((monthly_data.map (·.revenue)).sum / (monthly_data.length : ℚ) * (12/10)
              < i.revenue))).map
          (mk_peak ((monthly_data.map (·.revenue)).sum / (monthly_data.length : ℚ))) := by
  unfold peak_periods_all
  by_cases h : monthly_data.isEmpty
  · rw [if_pos h]
    rw [List.isEmpty_iff] at h
    simp [h]
  · rw [if_neg h]
    exact foldl_append_filter _ _ monthly_data []

/-- A successful sales-analytics response always carries the data-independent
conversion rate drawn at server.py line 252. -/
theorem conversion_rate_of_ok (records : List SalesRecord) (sd ed : Option ℤ)
    (region : Option String) (t : ℚ) (r : SalesAnalytics)
    (h : get_sales_analytics records sd ed region t = .ok r) :
    r.conversion_rate = round2 (uniform (5/2) (17/2) t) := by
  unfold get_sales_analytics sales_analytics_body at h
  by_cases hemp : (records.filter (matches_query sd ed region)).isEmpty
  · simp [hemp] at h
  · simp only [hemp, Bool.false_eq_true, if_false, if_neg] at h
    simp only [Except.ok.injEq] at h
    rw [← h]

/-- C1 (counterexample): the generated record with quantity 5 and raw SMB
unit price `19.004` stores `unit_price = 19.00` and `total_amount = 95.02`,
while `round(quantity * unit_price, 2) = 95.00` — the stored total is
rounded from the unrounded unit price (server.py lines 185, 197-198), not
recomputed from the stored one. -/
theorem total_amount_invariant_cx :
    cx_record.total_amount ≠ round2 ((cx_record.quantity : ℚ) * cx_record.unit_price) := by
  norm_num +decide [cx_record, cx_customer, cx_product, makeSalesRecord, gen_quantity,
    gen_unit_price, adjusted_unit_price, uniform, randint, round2, round_eq]

/-- C1 (amended): every generated record stores
`total_amount = round(quantity * u, 2)` and `unit_price = round(u, 2)` where
`u` is the unrounded post-adjustment unit price; the two roundings are
independent, and the claimed invariant
`total_amount = round(quantity * unit_price, 2)` over the stored unit price
is recovered only in special cases such as `quantity = 1`. -/
theorem total_amount_from_raw_price (idx : ℕ) (date : ℤ) (c : Customer) (p : Product)
    (qdraw : ℕ) (pt st : ℚ) (rep ch : String) :
    (makeSalesRecord idx date c p qdraw pt st rep ch).total_amount
      = round2 (((makeSalesRecord idx date c p qdraw pt st rep ch).quantity : ℚ)
          * adjusted_unit_price c.segment (gen_unit_price p pt) st) ∧
    (makeSalesRecord idx date c p qdraw pt st rep ch).unit_price
      = round2 (adjusted_unit_price c.segment (gen_unit_price p pt) st) ∧
    ((makeSalesRecord idx date c p qdraw pt st rep ch).quantity = 1 →
      (makeSalesRecord idx date c p qdraw pt st rep ch).total_amount
        = round2 (((makeSalesRecord idx date c p qdraw pt st rep ch).quantity : ℚ)
            * (makeSalesRecord idx date c p qdraw pt st rep ch).unit_price)) := by
  refine ⟨rfl, rfl, fun hq => ?_⟩
  have hq' : gen_quantity qdraw = 1 := hq
  show round2 ((gen_quantity qdraw : ℚ)
        * adjusted_unit_price c.segment (gen_unit_price p pt) st)
      = round2 ((gen_quantity qdraw : ℚ)
        * round2 (adjusted_unit_price c.segment (gen_unit_price p pt) st))
  rw [hq']
  norm_num [round2_round2]

/-- C1 (witness for the amended claim): with draw 0 the quantity is 1 and the
invariant over the stored unit price does hold. -/
theorem total_amount_from_raw_price_witness :
    (makeSalesRecord 0 0 cx_customer cx_product 0 (1/17500) 0 "Rep" "Online").total_amount
      = round2 (((makeSalesRecord 0 0 cx_customer cx_product 0 (1/17500) 0 "Rep" "Online").quantity : ℚ)
          * (makeSalesRecord 0 0 cx_customer cx_product 0 (1/17500) 0 "Rep" "Online").unit_price) :=
  (total_amount_from_raw_price 0 0 cx_customer cx_product 0 (1/17500) 0 "Rep" "Online").2.2 rfl

/-- C2: on a filtered transaction set that is empty (region "Europe" matches
no record), the `HTTPException(404, "No sales data found")` raised at
server.py line 244 is caught by the blanket `except Exception` of line 286
and re-raised as a generic 500 internal failure — the outward result is the
500 error, not a distinct not-found condition; the 404 exists only inside
the `try:` body. -/
theorem no_data_surfaces_as_500 :
    sales_analytics_body [demo_record] none none (some "Europe") 0
      = .error ⟨404, "No sales data found"⟩ ∧
    get_sales_analytics [demo_record] none none (some "Europe") 0
      = .error ⟨500, "Error calculating sales analytics: 404: No sales data found"⟩ := by
  constructor
  · norm_num +decide [sales_analytics_body, matches_query, demo_record]
  · norm_num +decide [get_sales_analytics, sales_analytics_body, matches_query, demo_record]

/-- C3 (counterexample): the request with inverted range `[10, 5]` over a
non-empty store is not rejected with any distinct invalid-range error: it
produces exactly the same wrapped no-data failure as querying an empty
store, because the inverted window silently filters every record out
(server.py has no range validation at all). -/
theorem invalid_range_cx :
    get_sales_analytics [demo_record] (some 10) (some 5) none 0
      = .error ⟨500, "Error calculating sales analytics: 404: No sales data found"⟩ ∧
    get_sales_analytics ([] : List SalesRecord) none none none 0
      = .error ⟨500, "Error calculating sales analytics: 404: No sales data found"⟩ := by
  constructor
  · norm_num +decide [get_sales_analytics, sales_analytics_body, matches_query, demo_record]
  · norm_num +decide [get_sales_analytics, sales_analytics_body, matches_query]

/-- C3 (amended): for every date range with end before start, the filtered
set is necessarily empty, so sales analytics fails with the generic wrapped
no-data error — the same condition as any empty result; no distinct
invalid-range rejection exists and no range validation is performed. -/
theorem inverted_range_yields_no_data (records : List SalesRecord) (s e : ℤ)
    (region : Option String) (t : ℚ) (h : e < s) :
    get_sales_analytics records (some s) (some e) region t
      = .error ⟨500, "Error calculating sales analytics: 404: No sales data found"⟩ := by
  have hfil : records.filter (matches_query (some s) (some e) region) = [] := by
    rw [List.filter_eq_nil_iff]
    intro r _
    unfold matches_query
    simp only [Bool.and_eq_true, decide_eq_true_eq, not_and]
    rintro ⟨h1, h2⟩
    omega
  unfold get_sales_analytics sales_analytics_body
  rw [hfil]
  rfl

/-- C3 (witness): the inverted range `[10, 5]` over the one-record store. -/
theorem inverted_range_yields_no_data_witness :
    get_sales_analytics [demo_record] (some 10) (some 5) none 0
      = .error ⟨500, "Error calculating sales analytics: 404: No sales data found"⟩ :=
  inverted_range_yields_no_data [demo_record] 10 5 none 0 (by norm_num)

/-- C4: over any chronologically sorted monthly series, the peak-period list
has at most 6 entries; it consists of exactly the chronologically first
(not largest) qualifying months — the first 6 of the filter of the full
series — listed in ascending month order, and every entry corresponds to a
month whose revenue strictly exceeds 1.2 times the mean monthly revenue of
the full series. -/
theorem peak_periods_spec (monthly_data : List MonthBucket)
    (hsorted : monthly_data.Pairwise (fun a b => a.month < b.month)) :
    (get_seasonal_trends monthly_data).peak_periods.length ≤ 6 ∧
    (get_seasonal_trends monthly_data).peak_periods
      = ((monthly_data.filter (fun i =>
            decide ((monthly_data.map (·.revenue)).sum / (monthly_data.length : ℚ) * (12/10)
              < i.revenue))).map
          (mk_peak ((monthly_data.map (·.revenue)).sum / (monthly_data.length : ℚ)))).take 6 ∧
    (∀ q ∈ (get_seasonal_trends monthly_data).peak_periods, ∃ i ∈ monthly_data,
        q.period = i.month ∧
        (monthly_data.map (·.revenue)).sum / (monthly_data.length : ℚ) * (12/10) < i.revenue ∧
        q.revenue = round2 i.revenue) ∧
    (get_seasonal_trends monthly_data).peak_periods.Pairwise
      (fun a b => a.period < b.period) := by
  have hpp : (get_seasonal_trends monthly_data).peak_periods
      = ((monthly_data.filter (fun i =>
            decide ((monthly_data.map (·.revenue)).sum / (monthly_data.length : ℚ) * (12/10)
              < i.revenue))).map
          (mk_peak ((monthly_data.map (·.revenue)).sum / (monthly_data.length : ℚ)))).take 6 := by
    show (peak_periods_all monthly_data).take 6 = _
    rw [peak_periods_all_eq]
  refine ⟨?_, hpp, ?_, ?_⟩
  · rw [hpp]
    exact List.length_take_le 6 _
  · intro q hq
    rw [hpp] at hq
    have hq' := List.take_subset 6 _ hq
    obtain ⟨i, hi, rfl⟩ := List.mem_map.mp hq'
    refine ⟨i, List.mem_of_mem_filter hi, rfl, ?_, rfl⟩
    have := List.of_mem_filter hi
    exact of_decide_eq_true this
  · rw [hpp, ← List.map_take]
    refine List.Pairwise.map _ (fun a b h => h) (List.Pairwise.sublist ?_ hsorted)
    exact (List.take_sublist 6 _).trans (List.filter_sublist _)

/-- C4 (witness): the concrete two-month series (mean 250, only February's
400 qualifies). -/
theorem peak_periods_spec_witness :
    (get_seasonal_trends demo_months).peak_periods.length ≤ 6 ∧
    (get_seasonal_trends demo_months).peak_periods.Pairwise
      (fun a b => a.period < b.period) :=
  ⟨(peak_periods_spec demo_months (by simp [demo_months]; decide)).1,
   (peak_periods_spec demo_months (by simp [demo_months]; decide)).2.2.2⟩

/-- C5: for every generated transaction, the segment factor multiplies the
raw unit price before the total is computed: an Enterprise draw multiplies
by a factor in `[1.2, 1.8]`, an Individual draw by a factor in `[0.7, 0.9]`,
an SMB draw leaves the price unadjusted; the stored `total_amount` is
(the rounding of) quantity times the adjusted unit price in every case, so
the pre-adjustment total of server.py line 177 is never stored. -/
theorem segment_price_adjustment_spec (idx : ℕ) (date : ℤ) (c : Customer) (p : Product)
    (qdraw : ℕ) (pt st : ℚ) (rep ch : String) (h0 : 0 ≤ st) (h1 : st ≤ 1) :
    (c.segment = "Enterprise" → ∃ f, 12/10 ≤ f ∧ f ≤ 18/10 ∧
      (makeSalesRecord idx date c p qdraw pt st rep ch).unit_price
        = round2 (gen_unit_price p pt * f) ∧
      (makeSalesRecord idx date c p qdraw pt st rep ch).total_amount
        = round2 (((makeSalesRecord idx date c p qdraw pt st rep ch).quantity : ℚ)
            * (gen_unit_price p pt * f))) ∧
    (c.segment = "Individual" → ∃ f, 7/10 ≤ f ∧ f ≤ 9/10 ∧
      (makeSalesRecord idx date c p qdraw pt st rep ch).unit_price
        = round2 (gen_unit_price p pt * f) ∧
      (makeSalesRecord idx date c p qdraw pt st rep ch).total_amount
        = round2 (((makeSalesRecord idx date c p qdraw pt st rep ch).quantity : ℚ)
            * (gen_unit_price p pt * f))) ∧
    (c.segment = "SMB" →
      (makeSalesRecord idx date c p qdraw pt st rep ch).unit_price
        = round2 (gen_unit_price p pt) ∧
      (makeSalesRecord idx date c p qdraw pt st rep ch).total_amount
        = round2 (((makeSalesRecord idx date c p qdraw pt st rep ch).quantity : ℚ)
            * gen_unit_price p pt)) := by
  refine ⟨fun hseg => ?_, fun hseg => ?_, fun hseg => ?_⟩
  · refine ⟨uniform (12/10) (18/10) st, ?_, ?_, ?_, ?_⟩
    · unfold uniform
      nlinarith
    · unfold uniform
      nlinarith
    · show round2 (adjusted_unit_price c.segment (gen_unit_price p pt) st) = _
      rw [hseg]
      unfold adjusted_unit_price
      rw [if_pos rfl]
    · show round2 ((gen_quantity qdraw : ℚ)
          * adjusted_unit_price c.segment (gen_unit_price p pt) st) = _
      rw [hseg]
      unfold adjusted_unit_price
      rw [if_pos rfl]
      rfl
  · refine ⟨uniform (7/10) (9/10) st, ?_, ?_, ?_, ?_⟩
    · unfold uniform
      nlinarith
    · unfold uniform
      nlinarith
    · show round2 (adjusted_unit_price c.segment (gen_unit_price p pt) st) = _
      rw [hseg]
      unfold adjusted_unit_price
      rw [if_neg (by decide), if_pos rfl]
    · show round2 ((gen_quantity qdraw : ℚ)
          * adjusted_unit_price c.segment (gen_unit_price p pt) st) = _
      rw [hseg]
      unfold adjusted_unit_price
      rw [if_neg (by decide), if_pos rfl]
      rfl
  · constructor
    · show round2 (adjusted_unit_price c.segment (gen_unit_price p pt) st) = _
      rw [hseg]
      unfold adjusted_unit_price
      rw [if_neg (by decide), if_neg (by decide)]
    · show round2 ((gen_quantity qdraw : ℚ)
          * adjusted_unit_price c.segment (gen_unit_price p pt) st) = _
      rw [hseg]
      unfold adjusted_unit_price
      rw [if_neg (by decide), if_neg (by decide)]
      rfl

/-- C5 (witness): concrete Enterprise and SMB records at factor draw 1/2. -/
theorem segment_price_adjustment_spec_witness :
    (∃ f, 12/10 ≤ f ∧ f ≤ 18/10 ∧
      (makeSalesRecord 0 0 ent_customer cx_product 4 (1/17500) (1/2) "Rep" "Online").unit_price
        = round2 (gen_unit_price cx_product (1/17500) * f) ∧
      (makeSalesRecord 0 0 ent_customer cx_product 4 (1/17500) (1/2) "Rep" "Online").total_amount
        = round2 (((makeSalesRecord 0 0 ent_customer cx_product 4 (1/17500) (1/2) "Rep"
            "Online").quantity : ℚ) * (gen_unit_price cx_product (1/17500) * f))) ∧
    ((makeSalesRecord 0 0 cx_customer cx_product 4 (1/17500) (1/2) "Rep" "Online").unit_price
        = round2 (gen_unit_price cx_product (1/17500)) ∧
      (makeSalesRecord 0 0 cx_customer cx_product 4 (1/17500) (1/2) "Rep" "Online").total_amount
        = round2 (((makeSalesRecord 0 0 cx_customer cx_product 4 (1/17500) (1/2) "Rep"
            "Online").quantity : ℚ) * gen_unit_price cx_product (1/17500))) :=
  ⟨(segment_price_adjustment_spec 0 0 ent_customer cx_product 4 (1/17500) (1/2) "Rep" "Online"
      (by norm_num) (by norm_num)).1 rfl,
   (segment_price_adjustment_spec 0 0 cx_customer cx_product 4 (1/17500) (1/2) "Rep" "Online"
      (by norm_num) (by norm_num)).2.2 rfl⟩

/-- C6: the base transaction count of a simulated day is drawn from exactly
the month-dependent range — `[15, 35]` for months 11 and 12, `[5, 15]` for
months 6, 7 and 8, `[8, 20]` otherwise (every value in the range is
attainable by some draw) — and on a weekend day (weekday 5 or 6) the drawn
count is then multiplied by `0.6` and truncated, after the random draw,
while a weekday keeps the drawn count unchanged. -/
theorem daily_transaction_count_spec (month weekday draw : ℕ) :
    (month = 11 ∨ month = 12 →
      15 ≤ base_transactions month draw ∧ base_transactions month draw ≤ 35) ∧
    (month = 6 ∨ month = 7 ∨ month = 8 →
      5 ≤ base_transactions month draw ∧ base_transactions month draw ≤ 15) ∧
    (¬(month = 11 ∨ month = 12) → ¬(month = 6 ∨ month = 7 ∨ month = 8) →
      8 ≤ base_transactions month draw ∧ base_transactions month draw ≤ 20) ∧
    (∀ k, 15 ≤ k → k ≤ 35 → ∃ d, base_transactions 11 d = k) ∧
    (∀ k, 5 ≤ k → k ≤ 15 → ∃ d, base_transactions 7 d = k) ∧
    (∀ k, 8 ≤ k → k ≤ 20 → ∃ d, base_transactions 1 d = k) ∧
    (5 ≤ weekday → daily_transactions month weekday draw
      = (⌊(base_transactions month draw : ℚ) * (6/10)⌋).toNat) ∧
    (weekday < 5 → daily_transactions month weekday draw = base_transactions month draw) := by
  refine ⟨fun hm => ?_, fun hm => ?_, fun hm1 hm2 => ?_, fun k hk1 hk2 => ?_,
    fun k hk1 hk2 => ?_, fun k hk1 hk2 => ?_, fun hw => ?_, fun hw => ?_⟩
  · unfold base_transactions randint
    rw [if_pos hm]
    omega
  · unfold base_transactions randint
    rw [if_neg (by omega), if_pos hm]
    omega
  · unfold base_transactions randint
    rw [if_neg hm1, if_neg hm2]
    omega
  · exact ⟨k - 15, by unfold base_transactions randint; norm_num; omega⟩
  · exact ⟨k - 5, by unfold base_transactions randint; norm_num; omega⟩
  · exact ⟨k - 8, by unfold base_transactions randint; norm_num; omega⟩
  · unfold daily_transactions
    rw [if_pos hw]
  · unfold daily_transactions
    rw [if_neg (by omega)]

/-- C6 (witness): December weekend day with draw 20 (base 35, damped to 21)
and a March weekday with draw 7 (base 15, kept). -/
theorem daily_transaction_count_spec_witness :
    daily_transactions 12 6 20 = (⌊(base_transactions 12 20 : ℚ) * (6/10)⌋).toNat ∧
    daily_transactions 3 2 7 = base_transactions 3 7 ∧
    15 ≤ base_transactions 12 20 ∧ base_transactions 12 20 ≤ 35 :=
  ⟨(daily_transaction_count_spec 12 6 20).2.2.2.2.2.2.1 (by norm_num),
   (daily_transaction_count_spec 3 2 7).2.2.2.2.2.2.2 (by norm_num),
   ((daily_transaction_count_spec 12 6 20).1 (Or.inr rfl)).1,
   ((daily_transaction_count_spec 12 6 20).1 (Or.inr rfl)).2⟩

/-- The guarded retention rate is never negative. -/
theorem customer_retention_rate_calc_nonneg (ret tot : ℕ) :
    0 ≤ customer_retention_rate_calc ret tot := by
  unfold customer_retention_rate_calc
  by_cases h : 0 < tot
  · rw [if_pos h]
    positivity
  · rw [if_neg h]

/-- The guarded retention rate never exceeds 100 when the returning count is
bounded by the total. -/
theorem customer_retention_rate_calc_le_100 (ret tot : ℕ) (h : ret ≤ tot) :
    customer_retention_rate_calc ret tot ≤ 100 := by
  unfold customer_retention_rate_calc
  by_cases hpos : 0 < tot
  · rw [if_pos hpos]
    have htot : (0 : ℚ) < (tot : ℚ) := by exact_mod_cast hpos
    have hdiv : (ret : ℚ) / (tot : ℚ) ≤ 1 :=
      (div_le_one htot).mpr (by exact_mod_cast h)
    nlinarith
  · rw [if_neg hpos]
    norm_num

/-- C7: every division of the metrics calculators is zero-guarded: the
average order value is 0 at transaction count 0 (server.py line 249), the
revenue and transaction growth percentages are 0 when the previous period
has zero revenue or zero transactions (lines 268, 273), and the retention
rate is 0 when there are no customers (line 313) — each expression takes
its `else 0` branch instead of dividing. -/
theorem division_guards_spec :
    (∀ total_revenue : ℚ, average_order_value total_revenue 0 = 0) ∧
    (∀ total_revenue : ℚ, revenue_growth_pct total_revenue 0 = 0) ∧
    (∀ total_transactions : ℕ, transaction_growth_pct total_transactions 0 = 0) ∧
    (∀ returning : ℕ, customer_retention_rate_calc returning 0 = 0) ∧
    (get_customer_analytics []).customer_retention_rate = 0 := by
  refine ⟨fun r => rfl, fun r => ?_, fun n => rfl, fun n => rfl, ?_⟩
  · unfold revenue_growth_pct
    rw [if_neg (lt_irrefl 0)]
  · show round2 (customer_retention_rate_calc 0 0) = 0
    exact round2_zero

/-- C8: generation against a non-empty store is a pure no-op: the store is
left unchanged (no write occurs), the call returns normally (the function
has no error path), and the result message reports the pre-existing record
count (server.py lines 119-121). -/
theorem generation_idempotent_on_nonempty (store fresh : List SalesRecord)
    (h : store ≠ []) :
    (generate_sample_data store fresh).1 = store ∧
    (generate_sample_data store fresh).2 = .alreadyExists store.length ∧
    (generate_sample_data store fresh).2.render
      = "Sample data already exists (" ++ toString store.length ++ " records)" := by
  have hlen : 0 < store.length := List.length_pos.mpr h
  unfold generate_sample_data
  rw [if_pos hlen]
  exact ⟨rfl, rfl, rfl⟩

/-- C8 (witness): a second invocation against the one-record store writes
nothing and reports the count 1. -/
theorem generation_idempotent_on_nonempty_witness :
    (generate_sample_data [demo_record] []).1 = [demo_record] ∧
    (generate_sample_data [demo_record] []).2 = .alreadyExists 1 :=
  ⟨(generation_idempotent_on_nonempty [demo_record] [] (by simp)).1,
   (generation_idempotent_on_nonempty [demo_record] [] (by simp)).2.1⟩

/-- C9: a customer group counts as returning exactly when its transaction
count exceeds 1, the retention rate is the rounded guarded quotient
`returning / total * 100` (0 at total 0), and for every input the retention
rate lies in `[0, 100]`. -/
theorem retention_rate_spec (customer_data : List CustomerGroup) :
    (get_customer_analytics customer_data).returning_customers
      = (customer_data.filter (fun c => 1 < c.transaction_count)).length ∧
    (get_customer_analytics customer_data).customer_retention_rate
      = round2 (customer_retention_rate_calc
          (customer_data.filter (fun c => 1 < c.transaction_count)).length
          customer_data.length) ∧
    0 ≤ (get_customer_analytics customer_data).customer_retention_rate ∧
    (get_customer_analytics customer_data).customer_retention_rate ≤ 100 := by
  refine ⟨rfl, rfl, ?_, ?_⟩
  · show 0 ≤ round2 (customer_retention_rate_calc
        (customer_data.filter (fun c => 1 < c.transaction_count)).length
        customer_data.length)
    calc (0 : ℚ) = round2 0 := round2_zero.symm
      _ ≤ _ := round2_mono (customer_retention_rate_calc_nonneg _ _)
  · show round2 (customer_retention_rate_calc
        (customer_data.filter (fun c => 1 < c.transaction_count)).length
        customer_data.length) ≤ 100
    calc round2 (customer_retention_rate_calc
          (customer_data.filter (fun c => 1 < c.transaction_count)).length
          customer_data.length)
        ≤ round2 100 :=
          round2_mono (customer_retention_rate_calc_le_100 _ _
            (List.length_filter_le _ _))
      _ = 100 := round2_hundred

/-- C10: the conversion rate of a successful sales-analytics response is a
pure function of the random draw, independent of the transaction data (two
responses over arbitrary different datasets with the same draw agree); for
a draw in `[0, 1]` it lies in `[2.5, 8.5]`; and two invocations over the
very same data with different draws can return different conversion
rates. -/
theorem conversion_rate_noninterference :
    (∀ (records1 records2 : List SalesRecord) (sd ed : Option ℤ) (region : Option String)
        (t : ℚ) (r1 r2 : SalesAnalytics),
      get_sales_analytics records1 sd ed region t = .ok r1 →
      get_sales_analytics records2 sd ed region t = .ok r2 →
      r1.conversion_rate = r2.conversion_rate) ∧
    (∀ (records : List SalesRecord) (sd ed : Option ℤ) (region : Option String) (t : ℚ)
        (r : SalesAnalytics), 0 ≤ t → t ≤ 1 →
      get_sales_analytics records sd ed region t = .ok r →
      5/2 ≤ r.conversion_rate ∧ r.conversion_rate ≤ 17/2) ∧
    (∃ (records : List SalesRecord) (t1 t2 : ℚ) (r1 r2 : SalesAnalytics),
      get_sales_analytics records none none none t1 = .ok r1 ∧
      get_sales_analytics records none none none t2 = .ok r2 ∧
      r1.conversion_rate ≠ r2.conversion_rate) := by
  refine ⟨?_, ?_, ?_⟩
  · intro records1 records2 sd ed region t r1 r2 h1 h2
    rw [conversion_rate_of_ok records1 sd ed region t r1 h1,
        conversion_rate_of_ok records2 sd ed region t r2 h2]
  · intro records sd ed region t r h0 h1 h
    rw [conversion_rate_of_ok records sd ed region t r h]
    constructor
    · calc (5/2 : ℚ) = round2 (5/2) := by norm_num [round2, round_eq]
        _ ≤ round2 (uniform (5/2) (17/2) t) := round2_mono (by unfold uniform; nlinarith)
    · calc round2 (uniform (5/2) (17/2) t)
          ≤ round2 (17/2) := round2_mono (by unfold uniform; nlinarith)
        _ = 17/2 := by norm_num [round2, round_eq]
  · refine ⟨[demo_record], 0, 1/2,
      ⟨100, 1, 100, 5/2, ⟨0, 0, 0⟩⟩, ⟨100, 1, 100, 11/2, ⟨0, 0, 0⟩⟩, ?_, ?_, by norm_num⟩
    · norm_num +decide [get_sales_analytics, sales_analytics_body, matches_query, demo_record,
        average_order_value, period_comparison_calc, uniform, round2, round_eq]
    · norm_num +decide [get_sales_analytics, sales_analytics_body, matches_query, demo_record,
        average_order_value, period_comparison_calc, uniform, round2, round_eq]

/-- C10 (witness): one-record and two-record datasets with the same draw 0
produce responses with the same conversion rate 2.5. -/
theorem conversion_rate_noninterference_witness :
    ({ total_revenue := 100, total_transactions := 1, average_order_value := 100,
       conversion_rate := 5/2, period_comparison := ⟨0, 0, 0⟩ } : SalesAnalytics).conversion_rate
      = ({ total_revenue := 200, total_transactions := 2, average_order_value := 100,
           conversion_rate := 5/2, period_comparison := ⟨0, 0, 0⟩ } : SalesAnalytics).conversion_rate := by
  apply conversion_rate_noninterference.1 [demo_record] [demo_record, demo_record]
      none none none 0
  · norm_num +decide [get_sales_analytics, sales_analytics_body, matches_query, demo_record,
      average_order_value, period_comparison_calc, uniform, round2, round_eq]
  · norm_num +decide [get_sales_analytics, sales_analytics_body, matches_query, demo_record,
      average_order_value, period_comparison_calc, uniform, round2, round_eq]

end RevenueInsights
